import Mathlib

/-!
Verification of the administrative-division resolver of `src/gaode.ts`.

Strings are modelled as `List Char` (a JS string is a sequence of characters;
all codes here are ASCII digits and all names are BMP CJK characters, where
JS code units and characters coincide).  Each definition below is a direct
translation of the correspondingly named function of `gaode.ts`.
-/

/-- A row of the administrative table (`CityInfo` in `gaode.ts`):
display name, administrative code, city service code. -/
structure CityInfo where
  name : List Char
  adcode : List Char
  citycode : List Char
deriving DecidableEq, Repr

/-- The three administrative tiers returned by `getAdminLevel`. -/
inductive AdminLevel where
  | province
  | city
  | district
deriving DecidableEq, Repr

/-- Translation of `getAdminLevel`: classify an adcode by its trailing zeros.
`adcode.endsWith("0000")` → province; `adcode.endsWith("00")` → city;
otherwise district. -/
def getAdminLevel (adcode : List Char) : AdminLevel :=
  if ("0000".toList).isSuffixOf adcode then .province
  else if ("00".toList).isSuffixOf adcode then .city
  else .district

/-- Translation of `findProvince`: first record whose adcode equals the
query's first two characters followed by `"0000"`. -/
def findProvince (adcode : List Char) (allCities : List CityInfo) : Option CityInfo :=
  allCities.find? (fun c => c.adcode == adcode.take 2 ++ "0000".toList)

/-- Translation of `findCity`: first record whose adcode equals the
query's first four characters followed by `"00"`. -/
def findCity (adcode : List Char) (allCities : List CityInfo) : Option CityInfo :=
  allCities.find? (fun c => c.adcode == adcode.take 4 ++ "00".toList)

/-- Translation of `isMunicipality`: membership in the four reserved codes. -/
def isMunicipality (cityInfo : CityInfo) : Bool :=
  ["110000".toList, "120000".toList, "310000".toList, "500000".toList].contains
    cityInfo.adcode

/-- Translation of `isCountyLevelCity`: district tier and name ending in 市. -/
def isCountyLevelCity (cityInfo : CityInfo) : Bool :=
  getAdminLevel cityInfo.adcode == .district && ("市".toList).isSuffixOf cityInfo.name

/-- Translation of `buildFullName`: compose the full administrative name
following the tier rules of the source. -/
def buildFullName (cityInfo : CityInfo) (allCities : List CityInfo) : List Char :=
  let level := getAdminLevel cityInfo.adcode
  if level = .province then
    cityInfo.name
  else
    let province := findProvince cityInfo.adcode allCities
    if level = .city then
      match province with
      | some p => if !isMunicipality p then p.name ++ cityInfo.name else cityInfo.name
      | none => cityInfo.name
    else if isCountyLevelCity cityInfo then
      match province with
      | some p => p.name ++ cityInfo.name
      | none => cityInfo.name
    else
      let city := findCity cityInfo.adcode allCities
      match province with
      | some p =>
          if isMunicipality p then p.name ++ cityInfo.name
          else
            match city with
            | some c => p.name ++ c.name ++ cityInfo.name
            | none => p.name ++ cityInfo.name
      | none => cityInfo.name

/-- Translation of `findDistrictsInProvince`: district-tier records whose
adcode starts with the given two-character province code. -/
def findDistrictsInProvince (provinceCode : List Char) (allCities : List CityInfo) :
    List CityInfo :=
  allCities.filter (fun c =>
    getAdminLevel c.adcode == .district && provinceCode.isPrefixOf c.adcode)

/-- Translation of `findDistrictsInCity`: district-tier records whose
adcode starts with the given four-character city code. -/
def findDistrictsInCity (cityCode : List Char) (allCities : List CityInfo) :
    List CityInfo :=
  allCities.filter (fun c =>
    getAdminLevel c.adcode == .district && cityCode.isPrefixOf c.adcode)

/-- Translation of `getCity`, parameterised by the loaded table:
exact adcode lookup. -/
def getCity (adcode : List Char) (allCities : List CityInfo) : Option CityInfo :=
  allCities.find? (fun c => c.adcode == adcode)

/-- Body of one iteration of the `listCity` expansion loop: how a single
matched record is expanded according to its tier. -/
def expandMatch (m : CityInfo) (allCities : List CityInfo) : List CityInfo :=
  match getAdminLevel m.adcode with
  | .province => findDistrictsInProvince (m.adcode.take 2) allCities
  | .city =>
      let districts := findDistrictsInCity (m.adcode.take 4) allCities
      if districts.length > 0 then districts else [m]
  | .district => [m]

/-- The `for` loop of `listCity` with its post-iteration `break` once the
accumulated list has at least 10 entries. -/
def expandLoop (ms : List CityInfo) (allCities : List CityInfo) (acc : List CityInfo) :
    List CityInfo :=
  match ms with
  | [] => acc
  | m :: rest =>
      let acc2 := acc ++ expandMatch m allCities
      if 10 ≤ acc2.length then acc2 else expandLoop rest allCities acc2

/-- Translation of `listCity`, parameterised by the loaded table.  A `none`
query models JS `undefined`/`null`; `city || ""` becomes `city.getD []`, and
`name.includes(q)` is the substring test. -/
def listCity (city : Option (List Char)) (allCities : List CityInfo) : List CityInfo :=
  let ms := allCities.filter (fun c => decide ((city.getD []) <:+: c.name))
  let expandedMatches := expandLoop ms allCities []
  let limitedMatches := expandedMatches.take 100
  limitedMatches.map (fun m =>
    { name := buildFullName m allCities, adcode := m.adcode, citycode := m.citycode })

/-- JS `String.prototype.trim`: drop whitespace from both ends. -/
def trimChars (l : List Char) : List Char :=
  ((l.dropWhile Char.isWhitespace).reverse.dropWhile Char.isWhitespace).reverse

/-- Translation of the row mapper inside `loadCityData`: destructure the first
three comma-separated fields and trim each.  A line with fewer than three
fields makes the JS code call `.trim()` on `undefined`, a thrown TypeError,
modelled as `.error`. -/
def parseLine (line : List Char) : Except String CityInfo :=
  match line.splitOn ',' with
  | n :: a :: c :: _ => .ok ⟨trimChars n, trimChars a, trimChars c⟩
  | _ => .error "TypeError"

/-- Translation of `loadCityData` applied to file content that was read
successfully: split on newlines, drop the header line, drop blank lines,
parse every remaining row (the first thrown error aborts the whole map). -/
def loadCityData (content : List Char) : Except String (List CityInfo) :=
  (((content.splitOn '\n').drop 1).filter (fun l => !(trimChars l).isEmpty)).mapM parseLine

/-- The per-match expansion rule exactly as the spec words it (§4.5 step 3):
a province match contributes the district records of that province, a city
match the district records of that city or, when there are none, the city
record itself, a district match itself.  Spec-side definition, to be compared
with `expandMatch` from the source. -/
def specExpand (m : CityInfo) (T : List CityInfo) : List CityInfo :=
  match getAdminLevel m.adcode with
  | .province =>
      T.filter (fun c =>
        getAdminLevel c.adcode == .district && (m.adcode.take 2).isPrefixOf c.adcode)
  | .city =>
      let ds := T.filter (fun c =>
        getAdminLevel c.adcode == .district && (m.adcode.take 4).isPrefixOf c.adcode)
      if ds.isEmpty then [m] else ds
  | .district => [m]

/-- Modelled from the spec: the "full expanded, composed table" of §8 — every
record of the table expanded by the tier rule and passed through the name
composer, with no result cap applied. -/
def fullExpandedComposed (T : List CityInfo) : List CityInfo :=
  ((T.map (fun m => expandMatch m T)).flatten).map (fun m =>
    { name := buildFullName m T, adcode := m.adcode, citycode := m.citycode })

/-- A well-formed administrative code: exactly six decimal digits. -/
def isValid6Digit (s : List Char) : Bool :=
  s.length == 6 && s.all Char.isDigit

/-- Modelled from the spec: the static CSV table `adcode_citycode.csv` is a
data file absent from `src/`; these rows are the example rows the spec gives
in §8 (a municipality with a district, and an ordinary province with a city
and a district). -/
def specTable : List CityInfo :=
  [⟨"北京市".toList, "110000".toList, "010".toList⟩,
   ⟨"东城区".toList, "110101".toList, "010".toList⟩,
   ⟨"浙江省".toList, "330000".toList, "0571".toList⟩,
   ⟨"杭州市".toList, "330100".toList, "0571".toList⟩,
   ⟨"西湖区".toList, "330106".toList, "0571".toList⟩]

/-- A table with one province and eleven subordinate districts: expanding the
single province match pushes the accumulated count from 0 past the 10
boundary in one step. -/
def elevenDistrictTable : List CityInfo :=
  [⟨"广东省".toList, "440000".toList, "020".toList⟩,
   ⟨"荔湾区".toList, "440103".toList, "020".toList⟩,
   ⟨"越秀区".toList, "440104".toList, "020".toList⟩,
   ⟨"海珠区".toList, "440105".toList, "020".toList⟩,
   ⟨"天河区".toList, "440106".toList, "020".toList⟩,
   ⟨"白云区".toList, "440111".toList, "020".toList⟩,
   ⟨"黄埔区".toList, "440112".toList, "020".toList⟩,
   ⟨"番禺区".toList, "440113".toList, "020".toList⟩,
   ⟨"花都区".toList, "440114".toList, "020".toList⟩,
   ⟨"南沙区".toList, "440115".toList, "020".toList⟩,
   ⟨"从化区".toList, "440117".toList, "020".toList⟩,
   ⟨"增城区".toList, "440118".toList, "020".toList⟩]

example : getAdminLevel "110000".toList = .province := by decide
example : getAdminLevel "330100".toList = .city := by decide
example : getAdminLevel "330106".toList = .district := by decide
example : getAdminLevel "".toList = .district := by decide
example :
    buildFullName ⟨"东城区".toList, "110101".toList, "010".toList⟩ specTable =
      "北京市东城区".toList := by decide
example :
    buildFullName ⟨"西湖区".toList, "330106".toList, "0571".toList⟩ specTable =
      "浙江省杭州市西湖区".toList := by decide
example : (listCity none specTable).length = 5 := by decide
example : listCity none specTable = listCity (some []) specTable := by decide
example :
    listCity (some "杭州".toList) specTable =
      [⟨"浙江省杭州市西湖区".toList, "330106".toList, "0571".toList⟩] := by decide
example : getCity "999999".toList specTable = none := by decide

theorem expandLoop_nil (T acc : List CityInfo) : expandLoop [] T acc = acc := rfl

theorem expandLoop_cons (m : CityInfo) (rest T acc : List CityInfo) :
    expandLoop (m :: rest) T acc =
      if 10 ≤ (acc ++ expandMatch m T).length then acc ++ expandMatch m T
      else expandLoop rest T (acc ++ expandMatch m T) := rfl

theorem suffix00_of_suffix0000 (s : List Char)
    (h : ("0000".toList).isSuffixOf s = true) : ("00".toList).isSuffixOf s = true := by
  rw [List.isSuffixOf_iff_suffix] at h ⊢
  exact List.IsSuffix.trans (by decide) h

theorem getAdminLevel_eq_province_iff (s : List Char) :
    getAdminLevel s = .province ↔ ("0000".toList).isSuffixOf s = true := by
  unfold getAdminLevel
  cases h1 : ("0000".toList).isSuffixOf s <;> cases h2 : ("00".toList).isSuffixOf s <;>
    simp_all

theorem getAdminLevel_eq_city_iff (s : List Char) :
    getAdminLevel s = .city ↔
      (("00".toList).isSuffixOf s = true ∧ ("0000".toList).isSuffixOf s = false) := by
  unfold getAdminLevel
  cases h1 : ("0000".toList).isSuffixOf s <;> cases h2 : ("00".toList).isSuffixOf s <;>
    simp_all

theorem getAdminLevel_eq_district_iff (s : List Char) :
    getAdminLevel s = .district ↔ ("00".toList).isSuffixOf s = false := by
  unfold getAdminLevel
  cases h1 : ("0000".toList).isSuffixOf s <;> cases h2 : ("00".toList).isSuffixOf s <;>
    simp_all
  exact absurd
    (List.IsSuffix.trans (by decide : (['0', '0'] : List Char) <:+ ['0', '0', '0', '0']) h1)
    (by simp [← List.isSuffixOf_iff_suffix, h2])

theorem expandMatch_eq_specExpand_aux (m : CityInfo) (T : List CityInfo) :
    expandMatch m T = specExpand m T := by
  unfold expandMatch specExpand findDistrictsInProvince findDistrictsInCity
  cases hAL : getAdminLevel m.adcode
  · rfl
  · dsimp only
    generalize (T.filter fun c =>
      getAdminLevel c.adcode == AdminLevel.district && (m.adcode.take 4).isPrefixOf c.adcode) = l
    cases l <;> simp
  · rfl

theorem expandLoop_characterization (T : List CityInfo) :
    ∀ (ms acc : List CityInfo), ∃ k, k ≤ ms.length ∧
      expandLoop ms T acc = acc ++ ((ms.take k).map (fun m => expandMatch m T)).flatten ∧
      (∀ j, 0 < j → j < k →
        (acc ++ ((ms.take j).map (fun m => expandMatch m T)).flatten).length < 10) ∧
      (k < ms.length → 10 ≤ (expandLoop ms T acc).length) := by
  intro ms
  induction ms with
  | nil =>
      intro acc
      refine ⟨0, Nat.le_refl 0, by simp [expandLoop_nil], ?_, ?_⟩
      · intro j hj0 hjk
        omega
      · intro h
        simp at h
  | cons m rest ih =>
      intro acc
      by_cases hstop : 10 ≤ (acc ++ expandMatch m T).length
      · refine ⟨1, by simp, ?_, ?_, ?_⟩
        · rw [expandLoop_cons, if_pos hstop]
          simp
        · intro j hj0 hjk
          omega
        · intro _
          rw [expandLoop_cons, if_pos hstop]
          exact hstop
      · obtain ⟨k, hk_le, hk_eq, hk_lt, hk_ge⟩ := ih (acc ++ expandMatch m T)
        refine ⟨k + 1, by simpa using hk_le, ?_, ?_, ?_⟩
        · rw [expandLoop_cons, if_neg hstop, hk_eq]
          simp [List.append_assoc]
        · intro j hj0 hjk
          cases j with
          | zero => omega
          | succ j' =>
            have hsplit :
                acc ++ (((m :: rest).take (j' + 1)).map (fun m => expandMatch m T)).flatten =
                  (acc ++ expandMatch m T) ++
                    ((rest.take j').map (fun m => expandMatch m T)).flatten := by
              simp [List.append_assoc]
            rw [hsplit]
            rcases Nat.eq_zero_or_pos j' with h0 | hpos
            · subst h0
              simpa using Nat.lt_of_not_le hstop
            · exact hk_lt j' hpos (by omega)
        · intro hklen
          rw [expandLoop_cons, if_neg hstop]
          exact hk_ge (by simpa using hklen)

theorem flatten_map_take_decomp {α β γ : Type} (f : γ → β) (g : α → List γ)
    (T : List α) (k n : Nat) :
    ∃ rest, ((T.map g).flatten).map f =
      ((((T.take k).map g).flatten.take n).map f) ++ rest := by
  refine ⟨(((T.take k).map g).flatten.drop n).map f ++ ((T.drop k).map g).flatten.map f, ?_⟩
  conv_lhs => rw [← List.take_append_drop k T, List.map_append, List.flatten_append,
    List.map_append]
  conv_rhs => rw [← List.append_assoc, ← List.map_append, List.take_append_drop]

theorem expandMatch_mem_not_province (m : CityInfo) (T : List CityInfo) (x : CityInfo)
    (hx : x ∈ expandMatch m T) : getAdminLevel x.adcode ≠ .province := by
  unfold expandMatch at hx
  cases hAL : getAdminLevel m.adcode <;> rw [hAL] at hx
  · unfold findDistrictsInProvince at hx
    rw [List.mem_filter] at hx
    have hd : getAdminLevel x.adcode = .district := by
      have := hx.2
      simp only [Bool.and_eq_true, beq_iff_eq] at this
      exact this.1
    simp [hd]
  · dsimp only at hx
    split at hx
    · unfold findDistrictsInCity at hx
      rw [List.mem_filter] at hx
      have hd : getAdminLevel x.adcode = .district := by
        have := hx.2
        simp only [Bool.and_eq_true, beq_iff_eq] at this
        exact this.1
      simp [hd]
    · have hxm : x = m := by simpa using hx
      rw [hxm, hAL]
      simp
  · have hxm : x = m := by simpa using hx
    rw [hxm, hAL]
    simp

/-- C7: for every valid 6-digit code, `getAdminLevel` returns province exactly
when the code ends in "0000", city exactly when it ends in "00" but not
"0000", and district otherwise. -/
theorem getAdminLevel_valid_code_spec (s : List Char) (h : isValid6Digit s = true) :
    (getAdminLevel s = .province ↔ ("0000".toList).isSuffixOf s = true) ∧
    (getAdminLevel s = .city ↔
      (("00".toList).isSuffixOf s = true ∧ ("0000".toList).isSuffixOf s = false)) ∧
    (getAdminLevel s = .district ↔ ("00".toList).isSuffixOf s = false) :=
  ⟨getAdminLevel_eq_province_iff s, getAdminLevel_eq_city_iff s,
    getAdminLevel_eq_district_iff s⟩

theorem getAdminLevel_valid_code_spec_witness :
    isValid6Digit ("330100".toList) = true ∧
      (getAdminLevel ("330100".toList) = .city ↔
        (("00".toList).isSuffixOf ("330100".toList) = true ∧
          ("0000".toList).isSuffixOf ("330100".toList) = false)) :=
  ⟨by decide, (getAdminLevel_valid_code_spec ("330100".toList) (by decide)).2.1⟩

/-- C10: `getAdminLevel` is total over all strings: every string is classified
as exactly one of the three tiers by the trailing-suffix tests alone; the
empty string and any string not ending in "00" are classified as district. -/
theorem getAdminLevel_total_spec :
    (∀ s : List Char,
      getAdminLevel s = .province ∨ getAdminLevel s = .city ∨
        getAdminLevel s = .district) ∧
    getAdminLevel [] = .district ∧
    (∀ s : List Char, ("00".toList).isSuffixOf s = false → getAdminLevel s = .district) := by
  refine ⟨?_, by decide, ?_⟩
  · intro s
    cases h : getAdminLevel s
    · exact Or.inl rfl
    · exact Or.inr (Or.inl rfl)
    · exact Or.inr (Or.inr rfl)
  · intro s h
    exact (getAdminLevel_eq_district_iff s).mpr h

theorem getAdminLevel_total_spec_witness :
    ("00".toList).isSuffixOf ("1101".toList) = false ∧
      getAdminLevel ("1101".toList) = .district :=
  ⟨by decide, getAdminLevel_total_spec.2.2 ("1101".toList) (by decide)⟩

/-- C8: a code matching no record's code yields `none` from `getCity`; "not
found" is a valid result, never a failure. -/
theorem getCity_absent_spec (adcode : List Char) (T : List CityInfo)
    (h : ∀ c ∈ T, c.adcode ≠ adcode) : getCity adcode T = none := by
  unfold getCity
  rw [List.find?_eq_none]
  intro c hc
  simpa using h c hc

theorem getCity_absent_spec_witness : getCity ("999999".toList) specTable = none :=
  getCity_absent_spec ("999999".toList) specTable (by decide)

/-- C3: for every query (present, absent, empty or non-matching) and every
table, the result of `listCity` has at most 100 entries. -/
theorem listCity_length_le_100 (q : Option (List Char)) (T : List CityInfo) :
    (listCity q T).length ≤ 100 := by
  simp only [listCity, List.length_map, List.length_take]
  omega

/-- C2: inside `listCity`, each matched record is expanded by tier in original
table order: a province match contributes exactly the district records under
its 2-digit prefix and nothing at all (not the province itself) when there
are none; a city match contributes the district records under its 4-digit
prefix, or the city record itself when there are none; a district match
contributes exactly itself. -/
theorem listCity_expansion_spec :
    (∀ (m : CityInfo) (T : List CityInfo), expandMatch m T = specExpand m T) ∧
    (∀ (q : Option (List Char)) (T : List CityInfo), ∃ k,
      listCity q T =
        (((((T.filter (fun c => decide ((q.getD []) <:+: c.name))).take k).map
            (fun m => specExpand m T)).flatten).take 100).map
          (fun m => ⟨buildFullName m T, m.adcode, m.citycode⟩)) := by
  refine ⟨expandMatch_eq_specExpand_aux, ?_⟩
  intro q T
  obtain ⟨k, hle, heq, hlt, hge⟩ :=
    expandLoop_characterization T (T.filter (fun c => decide ((q.getD []) <:+: c.name))) []
  refine ⟨k, ?_⟩
  have h1 : listCity q T =
      ((expandLoop (T.filter (fun c => decide ((q.getD []) <:+: c.name))) T []).take 100).map
        (fun m => (⟨buildFullName m T, m.adcode, m.citycode⟩ : CityInfo)) := rfl
  rw [h1, heq]
  simp [expandMatch_eq_specExpand_aux]

/-- C4: the `listCity` loop stops expanding further matches once the
accumulated count reaches 10; the boundary is checked only after each match
has been fully expanded, so the result is a concatenation of whole per-match
blocks and a single match can push the count past 10; matches after the one
that reached the boundary contribute nothing. -/
theorem listCity_stop_at_10_spec :
    (∀ (q : Option (List Char)) (T : List CityInfo),
      listCity q T =
        ((expandLoop (T.filter (fun c => decide ((q.getD []) <:+: c.name))) T []).take 100).map
          (fun m => (⟨buildFullName m T, m.adcode, m.citycode⟩ : CityInfo))) ∧
    (∀ (ms T : List CityInfo), ∃ k, k ≤ ms.length ∧
      expandLoop ms T [] = ((ms.take k).map (fun m => expandMatch m T)).flatten ∧
      (∀ j, j < k → (((ms.take j).map (fun m => expandMatch m T)).flatten).length < 10) ∧
      (k < ms.length → 10 ≤ (expandLoop ms T []).length)) ∧
    (∃ (ms T : List CityInfo), ms.length = 1 ∧ 10 < (expandLoop ms T []).length) := by
  refine ⟨fun q T => rfl, ?_, ?_⟩
  · intro ms T
    obtain ⟨k, hle, heq, hlt, hge⟩ := expandLoop_characterization T ms []
    refine ⟨k, hle, by simpa using heq, ?_, hge⟩
    intro j hj
    rcases Nat.eq_zero_or_pos j with h0 | hpos
    · subst h0
      simp
    · simpa using hlt j hpos hj
  · exact ⟨[⟨"广东省".toList, "440000".toList, "020".toList⟩], elevenDistrictTable,
      rfl, by decide⟩

/-- C5: an absent and an empty query behave identically (they match every
record); the result is a prefix of the full expanded, composed table, capped
at 100 entries, and on the spec's example table it is non-empty. -/
theorem listCity_empty_query_spec :
    (∀ T : List CityInfo, listCity none T = listCity (some []) T) ∧
    (∀ T : List CityInfo, ∃ rest, fullExpandedComposed T = listCity none T ++ rest) ∧
    listCity none specTable ≠ [] ∧
    (listCity none specTable).length ≤ 100 := by
  refine ⟨fun T => rfl, ?_, by decide, by decide⟩
  intro T
  have hfil : T.filter (fun c => decide ((([] : List Char)) <:+: c.name)) = T := by
    rw [List.filter_eq_self]
    intro a _
    simp
  obtain ⟨k, hle, heq, hlt, hge⟩ :=
    expandLoop_characterization T (T.filter (fun c => decide ((([] : List Char)) <:+: c.name))) []
  rw [hfil] at heq
  obtain ⟨rest, hrest⟩ :=
    flatten_map_take_decomp (fun m => (⟨buildFullName m T, m.adcode, m.citycode⟩ : CityInfo))
      (fun m => expandMatch m T) T k 100
  refine ⟨rest, ?_⟩
  have h1 : listCity none T =
      ((((T.take k).map (fun m => expandMatch m T)).flatten.take 100).map
        (fun m => (⟨buildFullName m T, m.adcode, m.citycode⟩ : CityInfo))) := by
    have h0 : listCity none T =
        ((expandLoop (T.filter (fun c => decide ((([] : List Char)) <:+: c.name))) T []).take
          100).map (fun m => (⟨buildFullName m T, m.adcode, m.citycode⟩ : CityInfo)) := rfl
    rw [h0, hfil, heq]
    simp
  rw [h1]
  exact hrest

/-- C9: no entry of a `listCity` result is province-tier: every returned
entry's code fails the ends-in-"0000" test, since province matches are always
replaced by their districts (or dropped) and only district records or a
city-tier fallback record are ever pushed. -/
theorem listCity_no_province_result (q : Option (List Char)) (T : List CityInfo)
    (r : CityInfo) (hr : r ∈ listCity q T) :
    ("0000".toList).isSuffixOf r.adcode = false ∧ getAdminLevel r.adcode ≠ .province := by
  have h1 : listCity q T =
      ((expandLoop (T.filter (fun c => decide ((q.getD []) <:+: c.name))) T []).take 100).map
        (fun m => (⟨buildFullName m T, m.adcode, m.citycode⟩ : CityInfo)) := rfl
  rw [h1, List.mem_map] at hr
  obtain ⟨m, hm, hfm⟩ := hr
  have hadcode : r.adcode = m.adcode := by rw [← hfm]
  have hm1 : m ∈ expandLoop (T.filter (fun c => decide ((q.getD []) <:+: c.name))) T [] :=
    List.mem_of_mem_take hm
  obtain ⟨k, _, heq, _, _⟩ :=
    expandLoop_characterization T (T.filter (fun c => decide ((q.getD []) <:+: c.name))) []
  rw [heq] at hm1
  simp only [List.nil_append, List.mem_flatten] at hm1
  obtain ⟨blk, hblk, hmblk⟩ := hm1
  rw [List.mem_map] at hblk
  obtain ⟨m2, _, hblk2⟩ := hblk
  rw [← hblk2] at hmblk
  have hnp : getAdminLevel m.adcode ≠ .province := expandMatch_mem_not_province m2 T m hmblk
  rw [hadcode]
  refine ⟨?_, hnp⟩
  cases h00 : ("0000".toList).isSuffixOf m.adcode
  · rfl
  · exact absurd ((getAdminLevel_eq_province_iff m.adcode).mpr h00) hnp

theorem listCity_no_province_result_witness :
    ("0000".toList).isSuffixOf
        (CityInfo.adcode ⟨"浙江省杭州市西湖区".toList, "330106".toList, "0571".toList⟩) =
      false ∧
    getAdminLevel
        (CityInfo.adcode ⟨"浙江省杭州市西湖区".toList, "330106".toList, "0571".toList⟩) ≠
      .province :=
  listCity_no_province_result (some "杭州".toList) specTable
    ⟨"浙江省杭州市西湖区".toList, "330106".toList, "0571".toList⟩ (by decide)

/-- C1: `buildFullName` follows the tier-driven rule table exactly: a province
returns its own name; a city prepends the province name when the parent
province exists and is not a municipality, else its own name; a county-level
city (district tier, name ending in 市) prepends only the province name when
the province exists, else its own name; an ordinary district prepends the
province name when the province is a municipality, province and city names
when both resolve, only the province name when only it resolves, and its own
name when nothing resolves. -/
theorem buildFullName_rule_table (r : CityInfo) (T : List CityInfo) (hr : r ∈ T) :
    (getAdminLevel r.adcode = .province → buildFullName r T = r.name) ∧
    (getAdminLevel r.adcode = .city →
      (∀ p, findProvince r.adcode T = some p → isMunicipality p = false →
        buildFullName r T = p.name ++ r.name) ∧
      (findProvince r.adcode T = none → buildFullName r T = r.name) ∧
      (∀ p, findProvince r.adcode T = some p → isMunicipality p = true →
        buildFullName r T = r.name)) ∧
    (getAdminLevel r.adcode = .district → isCountyLevelCity r = true →
      (∀ p, findProvince r.adcode T = some p → buildFullName r T = p.name ++ r.name) ∧
      (findProvince r.adcode T = none → buildFullName r T = r.name)) ∧
    (getAdminLevel r.adcode = .district → isCountyLevelCity r = false →
      (∀ p, findProvince r.adcode T = some p → isMunicipality p = true →
        buildFullName r T = p.name ++ r.name) ∧
      (∀ p c, findProvince r.adcode T = some p → isMunicipality p = false →
        findCity r.adcode T = some c → buildFullName r T = p.name ++ c.name ++ r.name) ∧
      (∀ p, findProvince r.adcode T = some p → isMunicipality p = false →
        findCity r.adcode T = none → buildFullName r T = p.name ++ r.name) ∧
      (findProvince r.adcode T = none → findCity r.adcode T = none →
        buildFullName r T = r.name)) := by
  refine ⟨?_, ?_, ?_, ?_⟩
  · intro hAL
    simp [buildFullName, hAL]
  · intro hAL
    refine ⟨?_, ?_, ?_⟩
    · intro p hP hM
      simp [buildFullName, hAL, hP, hM]
    · intro hP
      simp [buildFullName, hAL, hP]
    · intro p hP hM
      simp [buildFullName, hAL, hP, hM]
  · intro hAL hCLC
    refine ⟨?_, ?_⟩
    · intro p hP
      simp [buildFullName, hAL, hCLC, hP]
    · intro hP
      simp [buildFullName, hAL, hCLC, hP]
  · intro hAL hCLC
    refine ⟨?_, ?_, ?_, ?_⟩
    · intro p hP hM
      simp [buildFullName, hAL, hCLC, hP, hM]
    · intro p c hP hM hC
      simp [buildFullName, hAL, hCLC, hP, hM, hC]
    · intro p hP hM hC
      simp [buildFullName, hAL, hCLC, hP, hM, hC]
    · intro hP hC
      simp [buildFullName, hAL, hCLC, hP, hC]

theorem buildFullName_rule_table_witness :
    buildFullName ⟨"东城区".toList, "110101".toList, "010".toList⟩ specTable =
      (CityInfo.name ⟨"北京市".toList, "110000".toList, "010".toList⟩) ++
        (CityInfo.name ⟨"东城区".toList, "110101".toList, "010".toList⟩) :=
  ((buildFullName_rule_table ⟨"东城区".toList, "110101".toList, "010".toList⟩ specTable
      (by decide)).2.2.2 (by decide) (by decide)).1
    ⟨"北京市".toList, "110000".toList, "010".toList⟩ (by decide) (by decide)

/-- C6 counterexample: a data row with a single field (no commas) makes the
loader throw (JS calls `.trim()` on `undefined`), refuting the claim that
loading never fails on row content. -/
theorem loadCityData_row_failure :
    loadCityData ("name,adcode,citycode\ngarbage".toList) = .error "TypeError" := rfl

/-- C6 amended: a malformed row that still has at least three comma-separated
fields is propagated as a garbage record with no validation of the code, and
never rejected; a row with fewer than three fields raises a TypeError, so
loading can fail on row content. -/
theorem loadCityData_malformed_spec :
    (∀ (line : List Char) (n a c : List Char) (rest : List (List Char)),
      line.splitOn ',' = n :: a :: c :: rest →
        parseLine line = .ok ⟨trimChars n, trimChars a, trimChars c⟩) ∧
    (∀ line : List Char, (line.splitOn ',').length < 3 →
      ∃ e, parseLine line = .error e) ∧
    loadCityData ("name,adcode,citycode\n城市,notanumber,xyz".toList) =
      .ok [⟨"城市".toList, "notanumber".toList, "xyz".toList⟩] := by
  refine ⟨?_, ?_, rfl⟩
  · intro line n a c rest h
    unfold parseLine
    rw [h]
  · intro line h
    unfold parseLine
    split
    · rename_i n a c rest heq
      rw [heq] at h
      simp at h
      omega
    · exact ⟨"TypeError", rfl⟩

theorem loadCityData_malformed_spec_witness :
    parseLine ("a,12,x".toList) =
      .ok ⟨trimChars ("a".toList), trimChars ("12".toList), trimChars ("x".toList)⟩ :=
  loadCityData_malformed_spec.1 ("a,12,x".toList) ("a".toList) ("12".toList) ("x".toList) []
    (by decide)
